import Mathlib

/-!
Verification of the build-and-push pipeline of deploy-rs (files
`src/push.rs` and `src/buildca.rs`), as a shallow embedding.

The two Rust functions `push_profile` and `build_ca_profile` are async
functions whose only effects are: spawning subprocesses (and inspecting
their exit codes / captured stdout), checking file existence, and reading
the `LOCAL_KEY` environment variable.  We embed them as pure functions
over a `World` record that supplies the outcome of each effect, and we
return, next to the `Result`, a trace of the observable actions taken
(processes spawned, file-existence checks performed).  Subprocess stdout
is a byte list; Rust's UTF-8 decoding is modelled by a real UTF-8
decoder.  A Rust panic (`.unwrap()` on an `Err`) is modelled by a
dedicated `panicked` outcome.
-/

namespace DeployRs

/-- Opaque stand-in for `std::io::Error` values handed back by failed
process operations. -/
structure IoError where
  msg : String
deriving DecidableEq, Repr

/-- Opaque stand-in for `std::str::Utf8Error` (the payload of
`ShowDerivationUtf8`). -/
structure Utf8Error where
deriving DecidableEq, Repr

/-- Opaque stand-in for `serde_json::Error` (the payload of
`ShowDerivationParse`). -/
structure JsonError where
  msg : String
deriving DecidableEq, Repr

/-- `std::process::Output` as used by the pipeline: the exit code as
returned by `ExitStatus::code()` (`none` when the process did not exit
normally, e.g. was killed by a signal) and the captured stdout bytes. -/
structure Output where
  status : Option Int
  stdout : List Nat
deriving DecidableEq, Repr

/-- The error enum `PushProfileError` of `src/push.rs`. -/
inductive PushProfileError where
  | ShowDerivation (e : IoError)
  | ShowDerivationExit (code : Option Int)
  | ShowDerivationUtf8 (e : Utf8Error)
  | ShowDerivationParse (e : JsonError)
  | ShowDerivationEmpty
  | Build (e : IoError)
  | BuildExit (code : Option Int)
  | DeployRsActivateDoesntExist
  | ActivateRsDoesntExist
  | Sign (e : IoError)
  | SignExit (code : Option Int)
  | Copy (e : IoError)
  | CopyExit (code : Option Int)
  | CADerivationNonFlake
  | BuildErrorStart (e : IoError)
  | BuildErrorRun (e : IoError)
  | BuildErrorCode (code : Option Int)
deriving DecidableEq, Repr

/-- The error enum `BuildCAProfileError` of `src/buildca.rs`. -/
inductive BuildCAProfileError where
  | CADerivationNonFlake
  | BuildErrorStart (e : IoError)
  | BuildErrorRun (e : IoError)
  | BuildErrorCode (code : Option Int)
deriving DecidableEq, Repr

/-- Result of running one of the embedded Rust functions: normal return
(`ok`/`err`) or a Rust panic. -/
inductive Outcome (ε : Type) (α : Type) where
  | ok (a : α)
  | err (e : ε)
  | panicked
deriving DecidableEq, Repr

/-- A subprocess invocation: program, arguments in order, and
environment entries set on the command. -/
structure Cmd where
  prog : String
  args : List String
  envs : List (String × String)
deriving DecidableEq, Repr

/-- Observable actions of the pipeline, in order: spawning a process, or
checking that a path exists on the filesystem. -/
inductive Event where
  | spawn (c : Cmd)
  | pathCheck (p : String)
deriving DecidableEq, Repr

/- Data structures fed to the pipeline (from the configuration layer,
see `PushProfileData` and `super::DeployData` in the source). -/

structure ProfileSettings where
  path : String

structure Profile where
  profile_settings : ProfileSettings

structure NodeSettings where
  hostname : String

structure Node where
  node_settings : NodeSettings

structure CmdOverrides where
  hostname : Option String

structure MergedSettings where
  fast_connection : Option Bool
  ssh_opts : List String

structure DeployData where
  node_name : String
  profile_name : String
  profile : Profile
  node : Node
  cmd_overrides : CmdOverrides
  merged_settings : MergedSettings

structure DeployDefs where
  ssh_user : String

/-- `PushProfileData` of `src/push.rs`. -/
structure PushProfileData where
  supports_flakes : Bool
  check_sigs : Bool
  repo : String
  deploy_data : DeployData
  deploy_defs : DeployDefs
  keep_result : Bool
  result_path : Option String
  extra_build_args : List String

/-- `BuildCAProfileData` of `src/buildca.rs`. -/
structure BuildCAProfileData where
  supports_flakes : Bool
  repo : String
  deploy_data : DeployData
  extra_build_args : List String

/-- The outcomes of every effect the pipeline may perform, supplied by
the environment.  Each field corresponds to one effect site in the
source; a single run consults each at most once. -/
structure World where
  /-- `show_derivation_command.output()` (spawn-or-IO failure, or the
  process output). -/
  showDerivationRes : Except IoError Output
  /-- The composition of `serde_json::from_str` into
  `HashMap<&str, Value>` and `.keys()` iteration: for a given stdout
  string, the parse error or the key list in iteration order. -/
  jsonKeys : String → Except JsonError (List String)
  /-- CA branch `build_command.spawn()`. -/
  caBuildSpawn : Except IoError Unit
  /-- CA branch `build_child.wait_with_output()`. -/
  caBuildWait : Except IoError Output
  /-- Store branch `build_command.status()`: the spawn half. -/
  storeBuildSpawn : Except IoError Unit
  /-- Store branch `build_command.status()`: the wait half, yielding
  `ExitStatus::code()`. -/
  storeBuildWait : Except IoError (Option Int)
  /-- `std::env::var("LOCAL_KEY")`, `none` when unset (or not unicode). -/
  localKey : Option String
  /-- `Path::new(p).exists()`. -/
  fileExists : String → Bool
  /-- Sign `Command::status()` (IO failure, or exit code). -/
  signStatus : Except IoError (Option Int)
  /-- Copy `Command::status()` (IO failure, or exit code). -/
  copyStatus : Except IoError (Option Int)

/-- Rust `str::starts_with` for string patterns (byte-prefix test). -/
def rsStartsWith (s pat : String) : Bool :=
  pat.data.isPrefixOf s.data

/-- The Unicode code points with the White_Space property, as used by
Rust `char::is_whitespace`. -/
def rustIsWhitespace (c : Char) : Bool :=
  c.toNat ∈ [0x09, 0x0A, 0x0B, 0x0C, 0x0D, 0x20, 0x85, 0xA0, 0x1680,
    0x2000, 0x2001, 0x2002, 0x2003, 0x2004, 0x2005, 0x2006, 0x2007,
    0x2008, 0x2009, 0x200A, 0x2028, 0x2029, 0x202F, 0x205F, 0x3000]

/-- Rust `str::trim`: remove leading and trailing whitespace. -/
def trimChars (cs : List Char) : List Char :=
  ((cs.dropWhile rustIsWhitespace).reverse.dropWhile rustIsWhitespace).reverse

/-- UTF-8 decoding of a byte list (fuelled worker; the fuel is the byte
count, which bounds the number of decoded characters).  Rejects invalid
lead/continuation bytes, overlong encodings, surrogates, code points
above `0x10FFFF`, and truncated sequences — the exact validity condition
of Rust `String::from_utf8` / `std::str::from_utf8`. -/
def decodeUtf8Go : Nat → List Nat → Option (List Char)
  | _, [] => some []
  | 0, _ :: _ => none
  | fuel + 1, b :: bs =>
    if b < 0x80 then
      (decodeUtf8Go fuel bs).map (fun cs => Char.ofNat b :: cs)
    else if b < 0xC2 then
      none
    else if b < 0xE0 then
      match bs with
      | b1 :: bs2 =>
        if 0x80 ≤ b1 ∧ b1 < 0xC0 then
          (decodeUtf8Go fuel bs2).map
            (fun cs => Char.ofNat ((b - 0xC0) * 0x40 + (b1 - 0x80)) :: cs)
        else none
      | [] => none
    else if b < 0xF0 then
      match bs with
      | b1 :: b2 :: bs2 =>
        if (0x80 ≤ b1 ∧ b1 < 0xC0) ∧ (0x80 ≤ b2 ∧ b2 < 0xC0) then
          let cp := (b - 0xE0) * 0x1000 + (b1 - 0x80) * 0x40 + (b2 - 0x80)
          if cp < 0x800 ∨ (0xD800 ≤ cp ∧ cp ≤ 0xDFFF) then none
          else (decodeUtf8Go fuel bs2).map (fun cs => Char.ofNat cp :: cs)
        else none
      | _ => none
    else if b < 0xF5 then
      match bs with
      | b1 :: b2 :: b3 :: bs2 =>
        if (0x80 ≤ b1 ∧ b1 < 0xC0) ∧ (0x80 ≤ b2 ∧ b2 < 0xC0) ∧
            (0x80 ≤ b3 ∧ b3 < 0xC0) then
          let cp := (b - 0xF0) * 0x40000 + (b1 - 0x80) * 0x1000 +
            (b2 - 0x80) * 0x40 + (b3 - 0x80)
          if cp < 0x10000 ∨ 0x10FFFF < cp then none
          else (decodeUtf8Go fuel bs2).map (fun cs => Char.ofNat cp :: cs)
        else none
      | _ => none
    else none

/-- UTF-8 decoding of a byte list: `some` of the character list exactly
when the bytes are valid UTF-8. -/
def decodeUtf8 (bs : List Nat) : Option (List Char) :=
  decodeUtf8Go bs.length bs

/-- The flake attribute built for a content-addressed profile
(`push.rs` lines 108-115, `buildca.rs` lines 48-55):
`<repo>#deploy.nodes.<node>.profiles.<profile>.path`. -/
def caAttr (repo node_name profile_name : String) : String :=
  repo ++ "#deploy.nodes." ++ node_name ++ ".profiles." ++ profile_name ++ ".path"

/-- The build program chosen at `push.rs` lines 79-83. -/
def buildProg (supports_flakes : Bool) : String :=
  if supports_flakes then "nix" else "nix-build"

/-- The link-policy arguments added at `push.rs` lines 157-168. -/
def pushLinkArgs (d : PushProfileData) : List String :=
  match d.keep_result, d.supports_flakes with
  | true, _ =>
    ["--out-link",
      (d.result_path.getD "./.deploy-gc") ++ "/" ++ d.deploy_data.node_name
        ++ "/" ++ d.deploy_data.profile_name]
  | false, false => ["--no-out-link"]
  | false, true => ["--no-link"]

/-- The build command of the content-addressed branch of `push_profile`:
`build <attr>` (lines 108-115), then the link-policy arguments
(157-168), then the extra build arguments (170-172), then
`--print-out-paths` (180). -/
def caBuildCmd (d : PushProfileData) : Cmd :=
  { prog := buildProg d.supports_flakes
    args := ["build", caAttr d.repo d.deploy_data.node_name d.deploy_data.profile_name]
      ++ pushLinkArgs d ++ d.extra_build_args ++ ["--print-out-paths"]
    envs := [] }

/-- The build command of the store-path branch of `push_profile`: the
derivation name (under `build` when flakes are supported, lines
145-149), then the link-policy arguments, then the extra build
arguments. -/
def storeBuildCmd (d : PushProfileData) (derivation_name : String) : Cmd :=
  { prog := buildProg d.supports_flakes
    args := (if d.supports_flakes then ["build", derivation_name] else [derivation_name])
      ++ pushLinkArgs d ++ d.extra_build_args
    envs := [] }

/-- `nix show-derivation <path>` (`push.rs` lines 118-122). -/
def showDerivationCmd (path : String) : Cmd :=
  { prog := "nix", args := ["show-derivation", path], envs := [] }

/-- `nix sign-paths -r -k <key> <path>` (`push.rs` lines 231-236 and
275-280). -/
def signCmd (key p : String) : Cmd :=
  { prog := "nix", args := ["sign-paths", "-r", "-k", key, p], envs := [] }

/-- `ssh_opts.join(" ")` (`push.rs` lines 308-316). -/
def sshOptsStr (d : PushProfileData) : String :=
  String.intercalate " " d.deploy_data.merged_settings.ssh_opts

/-- Hostname resolution (`push.rs` lines 318-321): the command-line
override when present, the node's declared hostname otherwise. -/
def hostnameOf (d : PushProfileData) : String :=
  match d.deploy_data.cmd_overrides.hostname with
  | some x => x
  | none => d.deploy_data.node.node_settings.hostname

/-- The copy command (`push.rs` lines 297-345): `nix copy`, then
`--substitute-on-destination` when `fast_connection != Some(true)`, then
`--no-check-sigs` when signature checking is off, then
`--to ssh://<user>@<hostname> <path>`, with `NIX_SSHOPTS` set. -/
def copyCmd (d : PushProfileData) (p : String) : Cmd :=
  { prog := "nix"
    args := ["copy"]
      ++ (if d.deploy_data.merged_settings.fast_connection = some true then []
          else ["--substitute-on-destination"])
      ++ (if d.check_sigs = false then ["--no-check-sigs"] else [])
      ++ ["--to", "ssh://" ++ d.deploy_defs.ssh_user ++ "@" ++ hostnameOf d, p]
    envs := [("NIX_SSHOPTS", sshOptsStr d)] }

/-- The copy stage (`push.rs` lines 323-351): run the copy command; an
IO failure is `Copy`, a nonzero-or-missing exit code is `CopyExit`. -/
def copyStage (d : PushProfileData) (w : World) (p : String) :
    Outcome PushProfileError Unit × List Event :=
  match w.copyStatus with
  | .error e => (.err (.Copy e), [.spawn (copyCmd d p)])
  | .ok code =>
    if code = some 0 then (.ok (), [.spawn (copyCmd d p)])
    else (.err (.CopyExit code), [.spawn (copyCmd d p)])

/-- The verify-sign-copy tail of `push_profile` (`push.rs` lines
217-351; the source has one copy of this code per branch, identical up
to the path used, which is passed here as `p`): check
`<p>/deploy-rs-activate` then `<p>/activate-rs`, then sign when
`LOCAL_KEY` is set, then copy. -/
def afterBuild (d : PushProfileData) (w : World) (p : String) :
    Outcome PushProfileError Unit × List Event :=
  let ev1 := Event.pathCheck (p ++ "/deploy-rs-activate")
  if w.fileExists (p ++ "/deploy-rs-activate") = false then
    (.err .DeployRsActivateDoesntExist, [ev1])
  else
    let ev2 := Event.pathCheck (p ++ "/activate-rs")
    if w.fileExists (p ++ "/activate-rs") = false then
      (.err .ActivateRsDoesntExist, [ev1, ev2])
    else
      match w.localKey with
      | some key =>
        match w.signStatus with
        | .error e => (.err (.Sign e), [ev1, ev2, .spawn (signCmd key p)])
        | .ok code =>
          if code = some 0 then
            let res := copyStage d w p
            (res.1, [ev1, ev2, .spawn (signCmd key p)] ++ res.2)
          else (.err (.SignExit code), [ev1, ev2, .spawn (signCmd key p)])
      | none =>
        let res := copyStage d w p
        (res.1, [ev1, ev2] ++ res.2)

/-- The embedding of `push_profile` (`src/push.rs` lines 70-354). -/
def push_profile (d : PushProfileData) (w : World) :
    Outcome PushProfileError Unit × List Event :=
  let path := d.deploy_data.profile.profile_settings.path
  if rsStartsWith path "/nix/store" = false then
    -- content-addressed branch (`push.rs` lines 96-115, 174-202)
    if d.supports_flakes = false then (.err .CADerivationNonFlake, [])
    else
      match w.caBuildSpawn with
      | .error e => (.err (.BuildErrorStart e), [.spawn (caBuildCmd d)])
      | .ok _ =>
        match w.caBuildWait with
        | .error e => (.err (.BuildErrorRun e), [.spawn (caBuildCmd d)])
        | .ok out =>
          if out.status = some 0 then
            match decodeUtf8 out.stdout with
            | none =>
              -- `String::from_utf8(build_output.stdout).unwrap()` panics
              (.panicked, [.spawn (caBuildCmd d)])
            | some cs =>
              let res := afterBuild d w (String.mk cs)
              (res.1, [.spawn (caBuildCmd d)] ++ res.2)
          else (.err (.BuildErrorCode out.status), [.spawn (caBuildCmd d)])
  else
    -- store-path branch (`push.rs` lines 116-150, 203-215)
    match w.showDerivationRes with
    | .error e => (.err (.ShowDerivation e), [.spawn (showDerivationCmd path)])
    | .ok out =>
      if out.status = some 0 then
        match decodeUtf8 out.stdout with
        | none => (.err (.ShowDerivationUtf8 {}), [.spawn (showDerivationCmd path)])
        | some cs =>
          match w.jsonKeys (String.mk cs) with
          | .error e =>
            (.err (.ShowDerivationParse e), [.spawn (showDerivationCmd path)])
          | .ok keys =>
            match keys.head? with
            | none => (.err .ShowDerivationEmpty, [.spawn (showDerivationCmd path)])
            | some derivation_name =>
              match w.storeBuildSpawn with
              | .error e =>
                (.err (.Build e),
                  [.spawn (showDerivationCmd path), .spawn (storeBuildCmd d derivation_name)])
              | .ok _ =>
                match w.storeBuildWait with
                | .error e =>
                  (.err (.Build e),
                    [.spawn (showDerivationCmd path), .spawn (storeBuildCmd d derivation_name)])
                | .ok code =>
                  if code = some 0 then
                    let res := afterBuild d w path
                    (res.1,
                      [.spawn (showDerivationCmd path),
                        .spawn (storeBuildCmd d derivation_name)] ++ res.2)
                  else
                    (.err (.BuildExit code),
                      [.spawn (showDerivationCmd path),
                        .spawn (storeBuildCmd d derivation_name)])
      else (.err (.ShowDerivationExit out.status), [.spawn (showDerivationCmd path)])

/-- The build command of `build_ca_profile` (`buildca.rs` lines 45-63):
`nix build <attr> --no-link <extra args...> --print-out-paths`. -/
def caProfileBuildCmd (bd : BuildCAProfileData) : Cmd :=
  { prog := "nix"
    args := ["build",
        caAttr bd.repo bd.deploy_data.node_name bd.deploy_data.profile_name,
        "--no-link"]
      ++ bd.extra_build_args ++ ["--print-out-paths"]
    envs := [] }

/-- The embedding of `build_ca_profile` (`src/buildca.rs` lines 30-93).
On success the returned path is the trimmed UTF-8 decode of the build
stdout (`String::from_utf8(..).unwrap().trim().to_string()`, lines
85-88); invalid UTF-8 panics. -/
def build_ca_profile (bd : BuildCAProfileData) (w : World) :
    Outcome BuildCAProfileError String × List Event :=
  if bd.supports_flakes = false then (.err .CADerivationNonFlake, [])
  else
    match w.caBuildSpawn with
    | .error e => (.err (.BuildErrorStart e), [.spawn (caProfileBuildCmd bd)])
    | .ok _ =>
      match w.caBuildWait with
      | .error e => (.err (.BuildErrorRun e), [.spawn (caProfileBuildCmd bd)])
      | .ok out =>
        if out.status = some 0 then
          match decodeUtf8 out.stdout with
          | none => (.panicked, [.spawn (caProfileBuildCmd bd)])
          | some cs =>
            (.ok (String.mk (trimChars cs)), [.spawn (caProfileBuildCmd bd)])
        else (.err (.BuildErrorCode out.status), [.spawn (caProfileBuildCmd bd)])

/- Concrete sample inputs used by witnesses and counterexamples. -/

/-- A store-path deployment target (path under `/nix/store`). -/
def ddStore : DeployData :=
  { node_name := "node1", profile_name := "system",
    profile := { profile_settings := { path := "/nix/store/aaa-profile" } },
    node := { node_settings := { hostname := "host.example" } },
    cmd_overrides := { hostname := none },
    merged_settings := { fast_connection := none, ssh_opts := [] } }

/-- A content-addressed deployment target (path not under `/nix/store`). -/
def ddCa : DeployData :=
  { ddStore with profile := { profile_settings := { path := "/hashxyz" } } }

/-- Sample `PushProfileData` for the store-path branch. -/
def dStore : PushProfileData :=
  { supports_flakes := true, check_sigs := false, repo := "github:example/repo",
    deploy_data := ddStore, deploy_defs := { ssh_user := "root" },
    keep_result := false, result_path := none, extra_build_args := ["--impure"] }

/-- Sample `PushProfileData` for the content-addressed branch. -/
def dCa : PushProfileData :=
  { dStore with deploy_data := ddCa }

/-- Sample `BuildCAProfileData` matching `dCa`. -/
def bdCa : BuildCAProfileData :=
  { supports_flakes := true, repo := "github:example/repo",
    deploy_data := ddCa, extra_build_args := ["--impure"] }

/-- Recognizer for sign-process spawns: program `nix` with first
argument `sign-paths`. -/
def isSignEv : Event → Bool
  | .spawn c => c.prog == "nix" && c.args.head? == some "sign-paths"
  | .pathCheck _ => false

/-- Sample `PushProfileData` with a hostname override, an explicitly
fast connection, signature checking on, and SSH options. -/
def dFast : PushProfileData :=
  { dStore with
    check_sigs := true,
    deploy_data :=
      { ddStore with
        cmd_overrides := { hostname := some "over.example" },
        merged_settings := { fast_connection := some true, ssh_opts := ["-p", "2222"] } } }

/-- A world where every effect succeeds: show-derivation exits 0 with
stdout `"\x7b\x7d"`, the derivation map has one key, builds exit 0 (CA
build stdout is the bytes of `"/x\n"`), no signing key, every file
exists, sign and copy exit 0. -/
def wOk : World :=
  { showDerivationRes := .ok { status := some 0, stdout := [123, 125] }
    jsonKeys := fun _ => .ok ["/nix/store/aaa-profile.drv"]
    caBuildSpawn := .ok ()
    caBuildWait := .ok { status := some 0, stdout := [47, 120, 10] }
    storeBuildSpawn := .ok ()
    storeBuildWait := .ok (some 0)
    localKey := none
    fileExists := fun _ => true
    signStatus := .ok (some 0)
    copyStatus := .ok (some 0) }

/- Helper lemmas: how `push_profile` reaches the verify-sign-copy tail
in each branch. -/

/-- When the content-addressed build succeeds, `push_profile` continues
with the verify-sign-copy tail on the path decoded from the build
stdout. -/
theorem push_ca_success
    (d : PushProfileData) (w : World) (out : Output) (cs : List Char)
    (hca : rsStartsWith d.deploy_data.profile.profile_settings.path "/nix/store" = false)
    (hfl : d.supports_flakes = true)
    (hsp : w.caBuildSpawn = .ok ())
    (hw : w.caBuildWait = .ok out)
    (hst : out.status = some 0)
    (hdec : decodeUtf8 out.stdout = some cs) :
    push_profile d w =
      ((afterBuild d w (String.mk cs)).1,
        [.spawn (caBuildCmd d)] ++ (afterBuild d w (String.mk cs)).2) := by
  simp [push_profile, hca, hfl, hsp, hw, hst, hdec]

/-- When show-derivation and the store-path build succeed,
`push_profile` continues with the verify-sign-copy tail on the original
profile path. -/
theorem push_store_success
    (d : PushProfileData) (w : World) (out : Output) (cs : List Char)
    (name : String) (rest : List String)
    (hst : rsStartsWith d.deploy_data.profile.profile_settings.path "/nix/store" = true)
    (hsd : w.showDerivationRes = .ok out)
    (h0 : out.status = some 0)
    (hdec : decodeUtf8 out.stdout = some cs)
    (hjson : w.jsonKeys (String.mk cs) = .ok (name :: rest))
    (hbs : w.storeBuildSpawn = .ok ())
    (hbw : w.storeBuildWait = .ok (some 0)) :
    push_profile d w =
      ((afterBuild d w d.deploy_data.profile.profile_settings.path).1,
        [.spawn (showDerivationCmd d.deploy_data.profile.profile_settings.path),
          .spawn (storeBuildCmd d name)]
          ++ (afterBuild d w d.deploy_data.profile.profile_settings.path).2) := by
  simp [push_profile, hst, hsd, h0, hdec, hjson, hbs, hbw]

/-- C1: when the build subprocess exits with code 1, `push_profile`
returns the bad-exit-code error carrying `some 1` — `BuildExit` in the
store-path branch, `BuildErrorCode` in the content-addressed branch —
and the trace ends at the build spawn: no activation-entry-point check,
no signing process and no copy process occurs after the failed build. -/
theorem C1_build_exit_one_fail_fast
    (d : PushProfileData) (w : World) (out : Output)
    (cs : List Char) (name : String) (rest : List String) :
    ((rsStartsWith d.deploy_data.profile.profile_settings.path "/nix/store" = true) →
      w.showDerivationRes = .ok out → out.status = some 0 →
      decodeUtf8 out.stdout = some cs →
      w.jsonKeys (String.mk cs) = .ok (name :: rest) →
      w.storeBuildSpawn = .ok () → w.storeBuildWait = .ok (some 1) →
      push_profile d w =
        (.err (.BuildExit (some 1)),
          [.spawn (showDerivationCmd d.deploy_data.profile.profile_settings.path),
            .spawn (storeBuildCmd d name)])) ∧
    ((rsStartsWith d.deploy_data.profile.profile_settings.path "/nix/store" = false) →
      d.supports_flakes = true →
      w.caBuildSpawn = .ok () → w.caBuildWait = .ok out → out.status = some 1 →
      push_profile d w =
        (.err (.BuildErrorCode (some 1)), [.spawn (caBuildCmd d)])) := by
  constructor
  · intro h1 h2 h3 h4 h5 h6 h7
    simp [push_profile, h1, h2, h3, h4, h5, h6, h7]
  · intro h1 h2 h3 h4 h5
    simp [push_profile, h1, h2, h3, h4, h5]

/-- Witness for C1: concrete store-path and content-addressed runs whose
build exits with code 1. -/
theorem C1_build_exit_one_fail_fast_witness :
    push_profile dStore { wOk with storeBuildWait := .ok (some 1) } =
      (.err (.BuildExit (some 1)),
        [.spawn (showDerivationCmd "/nix/store/aaa-profile"),
          .spawn (storeBuildCmd dStore "/nix/store/aaa-profile.drv")]) ∧
    push_profile dCa { wOk with caBuildWait := .ok { status := some 1, stdout := [] } } =
      (.err (.BuildErrorCode (some 1)), [.spawn (caBuildCmd dCa)]) :=
  ⟨(C1_build_exit_one_fail_fast dStore
      { wOk with storeBuildWait := .ok (some 1) }
      { status := some 0, stdout := [123, 125] }
      [Char.ofNat 123, Char.ofNat 125] "/nix/store/aaa-profile.drv" []).1
      (by decide) rfl rfl (by decide) rfl rfl rfl,
    (C1_build_exit_one_fail_fast dCa
      { wOk with caBuildWait := .ok { status := some 1, stdout := [] } }
      { status := some 1, stdout := [] } [] "" []).2
      (by decide) rfl rfl rfl rfl⟩

/-- C2: for a profile path not under `/nix/store` (treated as
content-addressed), when flake support is false both `push_profile` and
`build_ca_profile` fail with their `CADerivationNonFlake` error with an
empty trace: no build subprocess is spawned. -/
theorem C2_ca_requires_flakes
    (d : PushProfileData) (w : World) (bd : BuildCAProfileData) (w2 : World) :
    ((rsStartsWith d.deploy_data.profile.profile_settings.path "/nix/store" = false) →
      d.supports_flakes = false →
      push_profile d w = (.err .CADerivationNonFlake, [])) ∧
    (bd.supports_flakes = false →
      build_ca_profile bd w2 = (.err .CADerivationNonFlake, [])) := by
  constructor
  · intro h1 h2
    simp [push_profile, h1, h2]
  · intro h1
    simp [build_ca_profile, h1]

/-- Witness for C2: a concrete content-addressed profile without flake
support fails in both entry points without spawning anything. -/
theorem C2_ca_requires_flakes_witness :
    push_profile { dCa with supports_flakes := false } wOk =
      (.err .CADerivationNonFlake, []) ∧
    build_ca_profile { bdCa with supports_flakes := false } wOk =
      (.err .CADerivationNonFlake, []) :=
  ⟨(C2_ca_requires_flakes { dCa with supports_flakes := false } wOk
      { bdCa with supports_flakes := false } wOk).1 (by decide) rfl,
    (C2_ca_requires_flakes { dCa with supports_flakes := false } wOk
      { bdCa with supports_flakes := false } wOk).2 rfl⟩

/-- C3: the build command of `push_profile` carries exactly one
link-policy argument block: `--out-link <result_path>/<node>/<profile>`
when `keep_result` is true (default result path `./.deploy-gc`,
regardless of flake support), `--no-out-link` when `keep_result` is
false without flake support, `--no-link` when `keep_result` is false
with flake support — in both the content-addressed and store-path build
commands. -/
theorem C3_link_policy (d : PushProfileData) (name : String) :
    (d.keep_result = true →
      pushLinkArgs d = ["--out-link",
        (d.result_path.getD "./.deploy-gc") ++ "/" ++ d.deploy_data.node_name
          ++ "/" ++ d.deploy_data.profile_name]) ∧
    (d.keep_result = true → d.result_path = none →
      pushLinkArgs d = ["--out-link",
        "./.deploy-gc" ++ "/" ++ d.deploy_data.node_name
          ++ "/" ++ d.deploy_data.profile_name]) ∧
    (d.keep_result = false → d.supports_flakes = false →
      pushLinkArgs d = ["--no-out-link"]) ∧
    (d.keep_result = false → d.supports_flakes = true →
      pushLinkArgs d = ["--no-link"]) ∧
    (caBuildCmd d).args =
      ["build", caAttr d.repo d.deploy_data.node_name d.deploy_data.profile_name]
        ++ pushLinkArgs d ++ d.extra_build_args ++ ["--print-out-paths"] ∧
    (storeBuildCmd d name).args =
      (if d.supports_flakes then ["build", name] else [name])
        ++ pushLinkArgs d ++ d.extra_build_args := by
  refine ⟨?_, ?_, ?_, ?_, rfl, rfl⟩
  · intro h
    simp [pushLinkArgs, h]
  · intro h h2
    simp [pushLinkArgs, h, h2]
  · intro h h2
    simp [pushLinkArgs, h, h2]
  · intro h h2
    simp [pushLinkArgs, h, h2]

/-- Witness for C3: concrete inputs exercising all three link-policy
cases. -/
theorem C3_link_policy_witness :
    pushLinkArgs { dStore with keep_result := true } =
      ["--out-link", "./.deploy-gc/node1/system"] ∧
    pushLinkArgs { dStore with supports_flakes := false } = ["--no-out-link"] ∧
    pushLinkArgs dStore = ["--no-link"] :=
  ⟨((C3_link_policy { dStore with keep_result := true } "x").2.1 rfl rfl).trans
      (by decide),
    (C3_link_policy { dStore with supports_flakes := false } "x").2.2.1 rfl rfl,
    (C3_link_policy dStore "x").2.2.2.1 rfl rfl⟩

/-- C4 counterexample: the claim says the caller-supplied extra build
arguments are the final arguments of the constructed build command in
the content-addressed branches too; in fact both content-addressed build
commands end with `--print-out-paths`, which is not caller-supplied. -/
theorem C4_cex :
    (caBuildCmd dCa).args.getLast? = some "--print-out-paths" ∧
    (caProfileBuildCmd bdCa).args.getLast? = some "--print-out-paths" ∧
    "--print-out-paths" ∉ dCa.extra_build_args ∧
    "--print-out-paths" ∉ bdCa.extra_build_args := by decide

/-- C4 (amended): the extra build arguments appear verbatim after every
policy flag in all three build commands; in the store-path branch of
`push_profile` they are the final arguments, while in the
content-addressed branches `--print-out-paths` is appended after them
and is the final argument. -/
theorem C4_extra_args_after_policy_flags
    (d : PushProfileData) (name : String) (bd : BuildCAProfileData) :
    (storeBuildCmd d name).args =
      ((if d.supports_flakes then ["build", name] else [name]) ++ pushLinkArgs d)
        ++ d.extra_build_args ∧
    (caBuildCmd d).args =
      (["build", caAttr d.repo d.deploy_data.node_name d.deploy_data.profile_name]
          ++ pushLinkArgs d)
        ++ (d.extra_build_args ++ ["--print-out-paths"]) ∧
    (caProfileBuildCmd bd).args =
      ["build", caAttr bd.repo bd.deploy_data.node_name bd.deploy_data.profile_name,
          "--no-link"]
        ++ (bd.extra_build_args ++ ["--print-out-paths"]) ∧
    (caBuildCmd d).args.getLast? = some "--print-out-paths" ∧
    (caProfileBuildCmd bd).args.getLast? = some "--print-out-paths" := by
  refine ⟨by simp [storeBuildCmd], by simp [caBuildCmd], by simp [caProfileBuildCmd],
    ?_, ?_⟩
  · have h : (caBuildCmd d).args =
        (["build", caAttr d.repo d.deploy_data.node_name d.deploy_data.profile_name]
          ++ pushLinkArgs d ++ d.extra_build_args) ++ "--print-out-paths" :: [] := by
      simp [caBuildCmd]
    rw [h, List.getLast?_append_cons]
    simp
  · have h : (caProfileBuildCmd bd).args =
        (["build", caAttr bd.repo bd.deploy_data.node_name bd.deploy_data.profile_name,
            "--no-link"]
          ++ bd.extra_build_args) ++ "--print-out-paths" :: [] := by
      simp [caProfileBuildCmd]
    rw [h, List.getLast?_append_cons]
    simp

/-- C5 counterexample: the claim says spawn failure and await-I/O
failure are distinct error kinds in every branch of the Build Executor;
in the store-path branch both are reported as the single kind `Build`,
shown here by two concrete runs failing at the two different points with
identical resulting error values. -/
theorem C5_cex :
    (push_profile dStore
        { wOk with storeBuildSpawn := .error { msg := "boom" } }).1 =
      .err (.Build { msg := "boom" }) ∧
    (push_profile dStore
        { wOk with storeBuildWait := .error { msg := "boom" } }).1 =
      .err (.Build { msg := "boom" }) := by decide

/-- C5 (amended): in the content-addressed branch the three build
failure modes are reported as three distinct kinds (`BuildErrorStart`,
`BuildErrorRun`, `BuildErrorCode` with the exit code preserved, `none`
when the process did not exit normally); in the store-path branch a
spawn failure and an await failure are both reported as the single kind
`Build`, while a nonzero-or-missing exit code is `BuildExit` with the
code preserved. -/
theorem C5_build_error_kinds
    (d : PushProfileData) (w : World) (e : IoError) (outCa sdOut : Output)
    (cs : List Char) (name : String) (rest : List String) (code : Option Int) :
    ((rsStartsWith d.deploy_data.profile.profile_settings.path "/nix/store" = false) →
      d.supports_flakes = true →
      (w.caBuildSpawn = .error e →
        (push_profile d w).1 = .err (.BuildErrorStart e)) ∧
      (w.caBuildSpawn = .ok () → w.caBuildWait = .error e →
        (push_profile d w).1 = .err (.BuildErrorRun e)) ∧
      (w.caBuildSpawn = .ok () → w.caBuildWait = .ok outCa →
        outCa.status = code → code ≠ some 0 →
        (push_profile d w).1 = .err (.BuildErrorCode code))) ∧
    ((rsStartsWith d.deploy_data.profile.profile_settings.path "/nix/store" = true) →
      w.showDerivationRes = .ok sdOut → sdOut.status = some 0 →
      decodeUtf8 sdOut.stdout = some cs →
      w.jsonKeys (String.mk cs) = .ok (name :: rest) →
      (w.storeBuildSpawn = .error e →
        (push_profile d w).1 = .err (.Build e)) ∧
      (w.storeBuildSpawn = .ok () → w.storeBuildWait = .error e →
        (push_profile d w).1 = .err (.Build e)) ∧
      (w.storeBuildSpawn = .ok () → w.storeBuildWait = .ok code →
        code ≠ some 0 →
        (push_profile d w).1 = .err (.BuildExit code))) := by
  constructor
  · intro h1 h2
    refine ⟨?_, ?_, ?_⟩
    · intro h3
      simp [push_profile, h1, h2, h3]
    · intro h3 h4
      simp [push_profile, h1, h2, h3, h4]
    · intro h3 h4 h5 h6
      simp [push_profile, h1, h2, h3, h4, h5, h6]
  · intro h1 h2 h3 h4 h5
    refine ⟨?_, ?_, ?_⟩
    · intro h6
      simp [push_profile, h1, h2, h3, h4, h5, h6]
    · intro h6 h7
      simp [push_profile, h1, h2, h3, h4, h5, h6, h7]
    · intro h6 h7 h8
      simp [push_profile, h1, h2, h3, h4, h5, h6, h7, h8]

/-- Witness for C5 (amended): the five failure modes at concrete
inputs, including a signal-killed build (`none` exit code). -/
theorem C5_build_error_kinds_witness :
    (push_profile dCa { wOk with caBuildSpawn := .error { msg := "e1" } }).1 =
      .err (.BuildErrorStart { msg := "e1" }) ∧
    (push_profile dCa { wOk with caBuildWait := .error { msg := "e2" } }).1 =
      .err (.BuildErrorRun { msg := "e2" }) ∧
    (push_profile dCa
        { wOk with caBuildWait := .ok { status := none, stdout := [] } }).1 =
      .err (.BuildErrorCode none) ∧
    (push_profile dStore { wOk with storeBuildSpawn := .error { msg := "e3" } }).1 =
      .err (.Build { msg := "e3" }) ∧
    (push_profile dStore { wOk with storeBuildWait := .ok none }).1 =
      .err (.BuildExit none) :=
  ⟨((C5_build_error_kinds dCa { wOk with caBuildSpawn := .error { msg := "e1" } }
      { msg := "e1" } { status := some 0, stdout := [] }
      { status := some 0, stdout := [] } [] "" [] none).1 (by decide) rfl).1 rfl,
    ((C5_build_error_kinds dCa { wOk with caBuildWait := .error { msg := "e2" } }
      { msg := "e2" } { status := some 0, stdout := [] }
      { status := some 0, stdout := [] } [] "" [] none).1 (by decide) rfl).2.1 rfl rfl,
    ((C5_build_error_kinds dCa
      { wOk with caBuildWait := .ok { status := none, stdout := [] } }
      { msg := "" } { status := none, stdout := [] }
      { status := some 0, stdout := [] } [] "" [] none).1 (by decide) rfl).2.2
      rfl rfl rfl (by decide),
    ((C5_build_error_kinds dStore
      { wOk with storeBuildSpawn := .error { msg := "e3" } }
      { msg := "e3" } { status := some 0, stdout := [] }
      { status := some 0, stdout := [123, 125] }
      [Char.ofNat 123, Char.ofNat 125] "/nix/store/aaa-profile.drv" [] none).2
      (by decide) rfl rfl (by decide) rfl).1 rfl,
    ((C5_build_error_kinds dStore { wOk with storeBuildWait := .ok none }
      { msg := "" } { status := some 0, stdout := [] }
      { status := some 0, stdout := [123, 125] }
      [Char.ofNat 123, Char.ofNat 125] "/nix/store/aaa-profile.drv" [] none).2
      (by decide) rfl rfl (by decide) rfl).2.2 rfl rfl (by decide)⟩

/-- C6: the Activation Verifier checks `deploy-rs-activate` before
`activate-rs`: when the primary script is missing (regardless of the
other) the result is `DeployRsActivateDoesntExist` and the second file
is never checked; when only `activate-rs` is missing the result is
`ActivateRsDoesntExist`; and both the content-addressed branch (on the
realized path) and the store-path branch (on the original path) of
`push_profile` run exactly this verifier. -/
theorem C6_activation_check_order
    (d : PushProfileData) (w : World) (p : String) (out : Output) (cs : List Char)
    (name : String) (rest : List String) :
    ((w.fileExists (p ++ "/deploy-rs-activate") = false →
        afterBuild d w p =
          (.err .DeployRsActivateDoesntExist,
            [.pathCheck (p ++ "/deploy-rs-activate")])) ∧
      (w.fileExists (p ++ "/deploy-rs-activate") = true →
        w.fileExists (p ++ "/activate-rs") = false →
        afterBuild d w p =
          (.err .ActivateRsDoesntExist,
            [.pathCheck (p ++ "/deploy-rs-activate"),
              .pathCheck (p ++ "/activate-rs")]))) ∧
    (rsStartsWith d.deploy_data.profile.profile_settings.path "/nix/store" = false →
      d.supports_flakes = true → w.caBuildSpawn = .ok () → w.caBuildWait = .ok out →
      out.status = some 0 → decodeUtf8 out.stdout = some cs →
      w.fileExists (String.mk cs ++ "/deploy-rs-activate") = false →
      push_profile d w =
        (.err .DeployRsActivateDoesntExist,
          [.spawn (caBuildCmd d),
            .pathCheck (String.mk cs ++ "/deploy-rs-activate")])) ∧
    (rsStartsWith d.deploy_data.profile.profile_settings.path "/nix/store" = true →
      w.showDerivationRes = .ok out → out.status = some 0 →
      decodeUtf8 out.stdout = some cs →
      w.jsonKeys (String.mk cs) = .ok (name :: rest) →
      w.storeBuildSpawn = .ok () → w.storeBuildWait = .ok (some 0) →
      w.fileExists
          (d.deploy_data.profile.profile_settings.path ++ "/deploy-rs-activate") = true →
      w.fileExists
          (d.deploy_data.profile.profile_settings.path ++ "/activate-rs") = false →
      push_profile d w =
        (.err .ActivateRsDoesntExist,
          [.spawn (showDerivationCmd d.deploy_data.profile.profile_settings.path),
            .spawn (storeBuildCmd d name),
            .pathCheck
              (d.deploy_data.profile.profile_settings.path ++ "/deploy-rs-activate"),
            .pathCheck
              (d.deploy_data.profile.profile_settings.path ++ "/activate-rs")])) := by
  refine ⟨⟨?_, ?_⟩, ?_, ?_⟩
  · intro h1
    simp [afterBuild, h1]
  · intro h1 h2
    simp [afterBuild, h1, h2]
  · intro h1 h2 h3 h4 h5 h6 h7
    rw [push_ca_success d w out cs h1 h2 h3 h4 h5 h6]
    simp [afterBuild, h7]
  · intro h1 h2 h3 h4 h5 h6 h7 h8 h9
    rw [push_store_success d w out cs name rest h1 h2 h3 h4 h5 h6 h7]
    simp [afterBuild, h8, h9]

/-- Witness for C6: concrete runs with a missing primary script (only
the first check in the trace) and a missing lower-level script, in both
branches. -/
theorem C6_activation_check_order_witness :
    afterBuild dStore { wOk with fileExists := fun _ => false }
        "/nix/store/aaa-profile" =
      (.err .DeployRsActivateDoesntExist,
        [.pathCheck "/nix/store/aaa-profile/deploy-rs-activate"]) ∧
    afterBuild dStore
        { wOk with fileExists := fun q => q != "/nix/store/aaa-profile/activate-rs" }
        "/nix/store/aaa-profile" =
      (.err .ActivateRsDoesntExist,
        [.pathCheck "/nix/store/aaa-profile/deploy-rs-activate",
          .pathCheck "/nix/store/aaa-profile/activate-rs"]) ∧
    push_profile dCa { wOk with fileExists := fun _ => false } =
      (.err .DeployRsActivateDoesntExist,
        [.spawn (caBuildCmd dCa), .pathCheck "/x\n/deploy-rs-activate"]) ∧
    push_profile dStore
        { wOk with fileExists := fun q => q != "/nix/store/aaa-profile/activate-rs" } =
      (.err .ActivateRsDoesntExist,
        [.spawn (showDerivationCmd "/nix/store/aaa-profile"),
          .spawn (storeBuildCmd dStore "/nix/store/aaa-profile.drv"),
          .pathCheck "/nix/store/aaa-profile/deploy-rs-activate",
          .pathCheck "/nix/store/aaa-profile/activate-rs"]) :=
  ⟨(C6_activation_check_order dStore { wOk with fileExists := fun _ => false }
      "/nix/store/aaa-profile" { status := some 0, stdout := [] } [] "" []).1.1 rfl,
    ((C6_activation_check_order dStore
      { wOk with fileExists := fun q => q != "/nix/store/aaa-profile/activate-rs" }
      "/nix/store/aaa-profile" { status := some 0, stdout := [] } [] "" []).1.2
      (by decide) (by decide)),
    ((C6_activation_check_order dCa { wOk with fileExists := fun _ => false }
      "dummy" { status := some 0, stdout := [47, 120, 10] }
      [Char.ofNat 47, Char.ofNat 120, Char.ofNat 10] "" []).2.1
      (by decide) rfl rfl rfl rfl (by decide) rfl).trans (by decide),
    ((C6_activation_check_order dStore
      { wOk with fileExists := fun q => q != "/nix/store/aaa-profile/activate-rs" }
      "dummy" { status := some 0, stdout := [123, 125] }
      [Char.ofNat 123, Char.ofNat 125] "/nix/store/aaa-profile.drv" []).2.2
      (by decide) rfl rfl (by decide) rfl rfl rfl (by decide) (by decide))⟩

/-- The copy command is not a sign spawn (its first argument is
`copy`). -/
theorem copyCmd_not_sign (d : PushProfileData) (p : String) :
    isSignEv (.spawn (copyCmd d p)) = false := rfl

/-- The sign command is a sign spawn. -/
theorem signCmd_is_sign (k p : String) :
    isSignEv (.spawn (signCmd k p)) = true := rfl

/-- The copy stage never spawns a sign process. -/
theorem copyStage_no_sign (d : PushProfileData) (w : World) (p : String) :
    (copyStage d w p).2.filter isSignEv = [] := by
  cases hs : w.copyStatus with
  | error e =>
    simp [copyStage, hs, copyCmd_not_sign]
  | ok code =>
    by_cases hc : code = some 0
    · simp [copyStage, hs, hc, copyCmd_not_sign]
    · simp [copyStage, hs, hc, copyCmd_not_sign]

/-- In the verify-sign-copy tail, when `LOCAL_KEY` is set and both
activation scripts exist, exactly one sign process is spawned, on the
path the tail was given. -/
theorem afterBuild_sign_some
    (d : PushProfileData) (w : World) (p k : String)
    (h1 : w.fileExists (p ++ "/deploy-rs-activate") = true)
    (h2 : w.fileExists (p ++ "/activate-rs") = true)
    (hk : w.localKey = some k) :
    (afterBuild d w p).2.filter isSignEv = [.spawn (signCmd k p)] := by
  cases hs : w.signStatus with
  | error e =>
    simp [afterBuild, h1, h2, hk, hs, isSignEv, signCmd]
  | ok code =>
    by_cases hc : code = some 0
    · have ht : (afterBuild d w p).2 =
          [Event.pathCheck (p ++ "/deploy-rs-activate"),
            Event.pathCheck (p ++ "/activate-rs"),
            Event.spawn (signCmd k p)] ++ (copyStage d w p).2 := by
        simp [afterBuild, h1, h2, hk, hs, hc]
      rw [ht, List.filter_append, copyStage_no_sign]
      simp [isSignEv, signCmd]
    · simp [afterBuild, h1, h2, hk, hs, hc, isSignEv, signCmd]

/-- In the verify-sign-copy tail, when `LOCAL_KEY` is unset no sign
process is spawned and the pipeline continues directly with the copy
stage (an unset key is not an error). -/
theorem afterBuild_sign_none
    (d : PushProfileData) (w : World) (p : String)
    (h1 : w.fileExists (p ++ "/deploy-rs-activate") = true)
    (h2 : w.fileExists (p ++ "/activate-rs") = true)
    (hk : w.localKey = none) :
    afterBuild d w p =
      ((copyStage d w p).1,
        [.pathCheck (p ++ "/deploy-rs-activate"), .pathCheck (p ++ "/activate-rs")]
          ++ (copyStage d w p).2) ∧
    (afterBuild d w p).2.filter isSignEv = [] := by
  have hmain : afterBuild d w p =
      ((copyStage d w p).1,
        [.pathCheck (p ++ "/deploy-rs-activate"), .pathCheck (p ++ "/activate-rs")]
          ++ (copyStage d w p).2) := by
    simp [afterBuild, h1, h2, hk]
  refine ⟨hmain, ?_⟩
  rw [hmain]
  cases hs : w.copyStatus with
  | error e => simp [copyStage, hs, isSignEv, copyCmd]
  | ok code =>
    by_cases hc : code = some 0
    · simp [copyStage, hs, hc, isSignEv, copyCmd]
    · simp [copyStage, hs, hc, isSignEv, copyCmd]

/-- C7: when `LOCAL_KEY` is unset no sign process is spawned and the
pipeline continues directly with the copy stage (not an error); when it
is set exactly one `nix sign-paths -r -k <key> <path>` process is
spawned, whose path argument is the realized output path in the
content-addressed branch and the original store path in the store-path
branch. -/
theorem C7_signing
    (d : PushProfileData) (w : World) (p k : String) (out : Output)
    (cs : List Char) (name : String) (rest : List String) :
    (w.fileExists (p ++ "/deploy-rs-activate") = true →
      w.fileExists (p ++ "/activate-rs") = true →
      w.localKey = none →
      (afterBuild d w p).2.filter isSignEv = [] ∧
      afterBuild d w p =
        ((copyStage d w p).1,
          [.pathCheck (p ++ "/deploy-rs-activate"),
            .pathCheck (p ++ "/activate-rs")] ++ (copyStage d w p).2)) ∧
    (w.fileExists (p ++ "/deploy-rs-activate") = true →
      w.fileExists (p ++ "/activate-rs") = true →
      w.localKey = some k →
      (afterBuild d w p).2.filter isSignEv = [.spawn (signCmd k p)]) ∧
    (rsStartsWith d.deploy_data.profile.profile_settings.path "/nix/store" = false →
      d.supports_flakes = true → w.caBuildSpawn = .ok () → w.caBuildWait = .ok out →
      out.status = some 0 → decodeUtf8 out.stdout = some cs →
      w.fileExists (String.mk cs ++ "/deploy-rs-activate") = true →
      w.fileExists (String.mk cs ++ "/activate-rs") = true →
      w.localKey = some k →
      (push_profile d w).2.filter isSignEv = [.spawn (signCmd k (String.mk cs))]) ∧
    (rsStartsWith d.deploy_data.profile.profile_settings.path "/nix/store" = true →
      w.showDerivationRes = .ok out → out.status = some 0 →
      decodeUtf8 out.stdout = some cs →
      w.jsonKeys (String.mk cs) = .ok (name :: rest) →
      w.storeBuildSpawn = .ok () → w.storeBuildWait = .ok (some 0) →
      w.fileExists
          (d.deploy_data.profile.profile_settings.path ++ "/deploy-rs-activate") = true →
      w.fileExists
          (d.deploy_data.profile.profile_settings.path ++ "/activate-rs") = true →
      w.localKey = some k →
      (push_profile d w).2.filter isSignEv =
        [.spawn (signCmd k d.deploy_data.profile.profile_settings.path)]) := by
  refine ⟨?_, ?_, ?_, ?_⟩
  · intro h1 h2 hk
    exact ⟨(afterBuild_sign_none d w p h1 h2 hk).2,
      (afterBuild_sign_none d w p h1 h2 hk).1⟩
  · intro h1 h2 hk
    exact afterBuild_sign_some d w p k h1 h2 hk
  · intro h1 h2 h3 h4 h5 h6 h7 h8 hk
    have hb : isSignEv (.spawn (caBuildCmd d)) = false := by
      simp [isSignEv, caBuildCmd]
    simp only [push_ca_success d w out cs h1 h2 h3 h4 h5 h6]
    rw [List.filter_append, afterBuild_sign_some d w (String.mk cs) k h7 h8 hk]
    simp [hb]
  · intro h1 h2 h3 h4 h5 h6 h7 h8 h9 hk
    have hb1 : isSignEv
        (.spawn (showDerivationCmd d.deploy_data.profile.profile_settings.path)) =
        false := by
      simp [isSignEv, showDerivationCmd]
    have hb2 : isSignEv (.spawn (storeBuildCmd d name)) = false := by
      cases hfl : d.supports_flakes <;>
        simp [isSignEv, storeBuildCmd, buildProg, hfl]
    simp only [push_store_success d w out cs name rest h1 h2 h3 h4 h5 h6 h7]
    rw [List.filter_append,
      afterBuild_sign_some d w d.deploy_data.profile.profile_settings.path k h8 h9 hk]
    simp [hb1, hb2]

/-- Witness for C7: concrete runs with the key unset (no sign spawn)
and set (exactly one sign spawn, on the realized path in the
content-addressed branch and on the original path in the store-path
branch). -/
theorem C7_signing_witness :
    (afterBuild dStore wOk "/nix/store/aaa-profile").2.filter isSignEv = [] ∧
    (afterBuild dStore { wOk with localKey := some "k1" }
        "/nix/store/aaa-profile").2.filter isSignEv =
      [.spawn (signCmd "k1" "/nix/store/aaa-profile")] ∧
    (push_profile dCa { wOk with localKey := some "k1" }).2.filter isSignEv =
      [.spawn (signCmd "k1" "/x\n")] ∧
    (push_profile dStore { wOk with localKey := some "k1" }).2.filter isSignEv =
      [.spawn (signCmd "k1" "/nix/store/aaa-profile")] :=
  ⟨((C7_signing dStore wOk "/nix/store/aaa-profile" "" { status := some 0, stdout := [] }
      [] "" []).1 rfl rfl rfl).1,
    (C7_signing dStore { wOk with localKey := some "k1" } "/nix/store/aaa-profile" "k1"
      { status := some 0, stdout := [] } [] "" []).2.1 rfl rfl rfl,
    ((C7_signing dCa { wOk with localKey := some "k1" } "unused" "k1"
      { status := some 0, stdout := [47, 120, 10] }
      [Char.ofNat 47, Char.ofNat 120, Char.ofNat 10] "" []).2.2.1
      (by decide) rfl rfl rfl rfl (by decide) rfl rfl rfl).trans (by decide),
    (C7_signing dStore { wOk with localKey := some "k1" } "unused" "k1"
      { status := some 0, stdout := [123, 125] }
      [Char.ofNat 123, Char.ofNat 125] "/nix/store/aaa-profile.drv" []).2.2.2
      (by decide) rfl rfl (by decide) rfl rfl rfl rfl rfl rfl⟩

/-- The ssh target string built by the copy stage starts with the
letter `s`. -/
theorem ssh_target_head (u h : String) :
    ("ssh://" ++ u ++ "@" ++ h).data.head? = some (Char.ofNat 115) := by
  rw [String.data_append, String.data_append, String.data_append]
  rfl

/-- The ssh target string built by the copy stage is never mistaken for
a flag (which starts with a dash). -/
theorem ssh_target_ne_flag (u h flag : String)
    (hf : flag.data.head? = some (Char.ofNat 45)) :
    "ssh://" ++ u ++ "@" ++ h ≠ flag := by
  intro he
  have h1 := ssh_target_head u h
  rw [he, hf] at h1
  exact absurd h1 (by decide)

/-- C8: the copy command targets `ssh://<ssh_user>@<hostname>` with the
command-line override taking precedence over the node's hostname;
`--substitute-on-destination` is present exactly when `fast_connection`
is not explicitly true; `--no-check-sigs` is present exactly when
signature checking is off. -/
theorem C8_copy_flags (d : PushProfileData) (p : String)
    (hp1 : p ≠ "--substitute-on-destination") (hp2 : p ≠ "--no-check-sigs") :
    (copyCmd d p).args =
      ["copy"]
        ++ (if d.deploy_data.merged_settings.fast_connection = some true then []
            else ["--substitute-on-destination"])
        ++ (if d.check_sigs = false then ["--no-check-sigs"] else [])
        ++ ["--to", "ssh://" ++ d.deploy_defs.ssh_user ++ "@" ++ hostnameOf d, p] ∧
    (∀ x, d.deploy_data.cmd_overrides.hostname = some x → hostnameOf d = x) ∧
    (d.deploy_data.cmd_overrides.hostname = none →
      hostnameOf d = d.deploy_data.node.node_settings.hostname) ∧
    ("--substitute-on-destination" ∈ (copyCmd d p).args ↔
      d.deploy_data.merged_settings.fast_connection ≠ some true) ∧
    ("--no-check-sigs" ∈ (copyCmd d p).args ↔ d.check_sigs = false) := by
  have htgt1 :
      "ssh://" ++ d.deploy_defs.ssh_user ++ "@" ++ hostnameOf d ≠
        "--substitute-on-destination" :=
    ssh_target_ne_flag _ _ _ (by decide)
  have htgt2 :
      "ssh://" ++ d.deploy_defs.ssh_user ++ "@" ++ hostnameOf d ≠
        "--no-check-sigs" :=
    ssh_target_ne_flag _ _ _ (by decide)
  refine ⟨rfl, ?_, ?_, ?_, ?_⟩
  · intro x hx
    simp [hostnameOf, hx]
  · intro hx
    simp [hostnameOf, hx]
  · constructor
    · intro hmem hfc
      by_cases hcs : d.check_sigs = false
      · simp [copyCmd, hfc, hcs] at hmem
        rcases hmem with h | h
        · exact htgt1 h.symm
        · exact hp1 h.symm
      · simp [copyCmd, hfc, hcs] at hmem
        rcases hmem with h | h
        · exact htgt1 h.symm
        · exact hp1 h.symm
    · intro hfc
      simp [copyCmd, hfc]
  · constructor
    · intro hmem
      by_contra hcs
      by_cases hfc : d.deploy_data.merged_settings.fast_connection = some true
      · simp [copyCmd, hfc, hcs] at hmem
        rcases hmem with h | h
        · exact htgt2 h.symm
        · exact hp2 h.symm
      · simp [copyCmd, hfc, hcs] at hmem
        rcases hmem with h | h
        · exact htgt2 h.symm
        · exact hp2 h.symm
    · intro hcs
      by_cases hfc : d.deploy_data.merged_settings.fast_connection = some true <;>
        simp [copyCmd, hfc, hcs]

/-- Witness for C8: the copy arguments for a slow-connection,
no-signature-check run without an override, and for an explicitly fast,
signature-checking run with a hostname override. -/
theorem C8_copy_flags_witness :
    (copyCmd dStore "/nix/store/aaa-profile").args =
      ["copy", "--substitute-on-destination", "--no-check-sigs", "--to",
        "ssh://root@host.example", "/nix/store/aaa-profile"] ∧
    (copyCmd dFast "/nix/store/aaa-profile").args =
      ["copy", "--to", "ssh://root@over.example", "/nix/store/aaa-profile"] ∧
    ("--substitute-on-destination" ∈ (copyCmd dStore "/nix/store/aaa-profile").args) ∧
    ("--substitute-on-destination" ∉ (copyCmd dFast "/nix/store/aaa-profile").args) :=
  ⟨((C8_copy_flags dStore "/nix/store/aaa-profile" (by decide) (by decide)).1).trans
      (by decide),
    ((C8_copy_flags dFast "/nix/store/aaa-profile" (by decide) (by decide)).1).trans
      (by decide),
    ((C8_copy_flags dStore "/nix/store/aaa-profile" (by decide)
      (by decide)).2.2.2.1).mpr (by decide),
    fun hmem =>
      absurd (((C8_copy_flags dFast "/nix/store/aaa-profile" (by decide)
        (by decide)).2.2.2.1).mp hmem) (by decide)⟩

/-- C9: the claim (and the spec's error policy) says every outcome is
`Ok` or a tagged error and invalid UTF-8 on the content-addressed build
stdout is surfaced as a structured error; but with exit code 0 and
stdout byte `0xFF` both `push_profile` (content-addressed branch) and
`build_ca_profile` execute `String::from_utf8(..).unwrap()` on an `Err`
and panic. -/
theorem C9_invalid_utf8_panics :
    (push_profile dCa
        { wOk with caBuildWait := .ok { status := some 0, stdout := [255] } }).1 =
      .panicked ∧
    (build_ca_profile bdCa
        { wOk with caBuildWait := .ok { status := some 0, stdout := [255] } }).1 =
      .panicked := by decide

/-- C10 counterexample: with identical build commands and identical
stdout bytes (the bytes of `"/x\n"`), `build_ca_profile` derives the
trimmed path `/x` while the content-addressed branch of `push_profile`
continues with the untrimmed text `"/x\n"` (visible in the path it
hands to the activation check), so the two do not derive the same
realized artifact path from the same bytes. -/
theorem C10_cex :
    caBuildCmd dCa = caProfileBuildCmd bdCa ∧
    (build_ca_profile bdCa wOk).1 = .ok "/x" ∧
    (push_profile dCa { wOk with fileExists := fun _ => false }).2 =
      [.spawn (caBuildCmd dCa), .pathCheck "/x\n/deploy-rs-activate"] ∧
    ("/x\n" : String) ≠ "/x" := by decide

/-- C10 (amended): for matching inputs (same repo, node, profile and
extra arguments, `keep_result` false, flake support on) the
content-addressed branch of `push_profile` and `build_ca_profile`
construct the same build command; from the same stdout bytes,
`build_ca_profile` returns the trimmed decoded text while `push_profile`
continues with the untrimmed decoded text, and the two agree when the
decoded text has no surrounding whitespace. -/
theorem C10_ca_build_agreement
    (d : PushProfileData) (bd : BuildCAProfileData) (w : World)
    (bs : List Nat) (cs : List Char)
    (h1 : d.repo = bd.repo)
    (h2 : d.deploy_data.node_name = bd.deploy_data.node_name)
    (h3 : d.deploy_data.profile_name = bd.deploy_data.profile_name)
    (h4 : d.extra_build_args = bd.extra_build_args)
    (h5 : d.keep_result = false) (h6 : d.supports_flakes = true)
    (hca : rsStartsWith d.deploy_data.profile.profile_settings.path "/nix/store" = false)
    (hbf : bd.supports_flakes = true)
    (hsp : w.caBuildSpawn = .ok ())
    (hw : w.caBuildWait = .ok { status := some 0, stdout := bs })
    (hdec : decodeUtf8 bs = some cs) :
    caBuildCmd d = caProfileBuildCmd bd ∧
    build_ca_profile bd w =
      (.ok (String.mk (trimChars cs)), [.spawn (caProfileBuildCmd bd)]) ∧
    push_profile d w =
      ((afterBuild d w (String.mk cs)).1,
        [.spawn (caBuildCmd d)] ++ (afterBuild d w (String.mk cs)).2) ∧
    (trimChars cs = cs → String.mk (trimChars cs) = String.mk cs) := by
  refine ⟨?_, ?_, ?_, ?_⟩
  · simp [caBuildCmd, caProfileBuildCmd, pushLinkArgs, buildProg, h1, h2, h3, h4,
      h5, h6]
  · simp [build_ca_profile, hbf, hsp, hw, hdec]
  · exact push_ca_success d w { status := some 0, stdout := bs } cs hca h6 hsp hw
      rfl hdec
  · intro ht
    rw [ht]

/-- Witness for C10 (amended): the agreement at the concrete
content-addressed sample inputs. -/
theorem C10_ca_build_agreement_witness :
    caBuildCmd dCa = caProfileBuildCmd bdCa ∧
    build_ca_profile bdCa wOk = (.ok "/x", [.spawn (caProfileBuildCmd bdCa)]) ∧
    push_profile dCa wOk =
      ((afterBuild dCa wOk "/x\n").1,
        [.spawn (caBuildCmd dCa)] ++ (afterBuild dCa wOk "/x\n").2) :=
  ⟨(C10_ca_build_agreement dCa bdCa wOk [47, 120, 10]
      [Char.ofNat 47, Char.ofNat 120, Char.ofNat 10]
      rfl rfl rfl rfl rfl rfl (by decide) rfl rfl rfl rfl).1,
    ((C10_ca_build_agreement dCa bdCa wOk [47, 120, 10]
      [Char.ofNat 47, Char.ofNat 120, Char.ofNat 10]
      rfl rfl rfl rfl rfl rfl (by decide) rfl rfl rfl rfl).2.1).trans (by decide),
    ((C10_ca_build_agreement dCa bdCa wOk [47, 120, 10]
      [Char.ofNat 47, Char.ofNat 120, Char.ofNat 10]
      rfl rfl rfl rfl rfl rfl (by decide) rfl rfl rfl rfl).2.2.1).trans (by decide)⟩

end DeployRs
